import Mathlib

/-
Verification of the synthetic transaction-history generator
(src/lakebase_setup/data_generator/data_generator.py, class TransactionGenerator).

Modelling conventions:
* Python ints are Int (ledger levels, quantity deltas) or Nat (ids, day indices).
* Python floats (multipliers, weights) are Rat; `int(x)` on a non-negative float
  is `Int.toNat (Int.floor x)`.
* Randomness is an oracle: every call of random.random / random.randint /
  random.choice / random.choices / random.uniform is one explicit input.
  `randint(lo, hi)` is encoded as `lo + d % (hi + 1 - lo)` for a raw draw
  `d : Nat`, which ranges over exactly the interval [lo, hi]; a weighted
  `choices` over options with all-positive weights is encoded as an index draw
  modulo the option-list length (same support).  Claims here are about every
  possible draw sequence, never about distributions, except where the weight
  table itself is the object of the claim (deliveredWeight below).
-/

set_option maxHeartbeats 1000000

/-- Transaction types of self.transaction_types (inbound / sale / adjustment). -/
inductive TType where
  | inbound
  | sale
  | adjustment
deriving DecidableEq

/-- Product categories appearing in generate_products_data. -/
inductive Cat where
  | motors
  | batteries
  | frames
  | wheels
  | brakes
  | electronics
  | drivetrain
  | accessories
deriving DecidableEq

/-- Transaction statuses appearing in the status_options tables. -/
inductive Status where
  | delivered
  | shipped
  | processing
  | confirmed
  | pending
deriving DecidableEq

/-- reorder_level of product i (1-based), from the generate_products_data list
(41 products, in source order). -/
def reorderLevel (pid : ℕ) : ℕ :=
  [15, 20, 10, 25,
   30, 40, 15, 50, 35,
   8, 20, 12, 15,
   25, 35, 20, 60, 80,
   30, 40, 100, 120,
   35, 50, 60, 70, 25,
   20, 50, 30, 35,
   40, 45, 35, 50, 80, 45, 60, 100, 150, 55].getD (pid - 1) 0

/-- Product ids of each category, in source order (build_product_categories
appends i + 1 for each product of the category; Wire Harness Main, product 41,
is in category Electronics even though it sits in the accessories block). -/
def catProducts : Cat → List ℕ
  | Cat.motors => [1, 2, 3, 4]
  | Cat.batteries => [5, 6, 7, 8, 9]
  | Cat.frames => [10, 11, 12, 13]
  | Cat.wheels => [14, 15, 16, 17, 18]
  | Cat.brakes => [19, 20, 21, 22]
  | Cat.electronics => [23, 24, 25, 26, 27, 41]
  | Cat.drivetrain => [28, 29, 30, 31]
  | Cat.accessories => [32, 33, 34, 35, 36, 37, 38, 39, 40]

/-- bulk_order_frequency > 0.7 for a category (category_configs table:
Motors 0.7, Batteries 0.8, Frames 0.6, Wheels 0.7, Brakes 0.8,
Electronics 0.6, Drivetrain 0.7, Accessories 0.5). -/
def bulkHigh : Cat → Bool
  | Cat.batteries => true
  | Cat.brakes => true
  | _ => false

/-- All (product_id, warehouse_id) keys of self.inventory_levels, in the
insertion order of initialize_inventory_levels (products outer, warehouses
1,2,3 inner). -/
def pairsList : List (ℕ × ℕ) :=
  (List.range 41).flatMap (fun i => [(i + 1, 1), (i + 1, 2), (i + 1, 3)])

/-- Warehouse capacity multiplier of initialize_inventory_levels:
uniform(1.0,1.4) for Lyon (1), uniform(0.8,1.2) for Hamburg (2),
uniform(0.6,1.0) for Milan (3); u in [0,1] is the uniform draw. -/
def whMult (wid : ℕ) (u : ℚ) : ℚ :=
  if wid = 1 then 1 + u * (4/10)
  else if wid = 2 then 8/10 + u * (4/10)
  else 6/10 + u * (4/10)

/-- Initial stock of one (product, warehouse) pair
(initialize_inventory_levels): base_stock = reorder_level * uniform(1.2,2.2),
scaled by the warehouse multiplier, truncated with int(), then clamped from
below with max(initial_stock, reorder_level).  u1, u2 in [0,1] are the two
uniform draws. -/
def initStock (rlv : ℕ) (wid : ℕ) (u1 u2 : ℚ) : ℕ :=
  max (Int.toNat (Int.floor ((rlv : ℚ) * (12/10 + u1) * whMult wid u2))) rlv

/-- initialize_inventory_levels: the full initial inventory table (ud gives
the two uniform draws of each pair). -/
def initLedger (ud : ℕ × ℕ → ℚ × ℚ) : ℕ × ℕ → ℕ :=
  fun p => initStock (reorderLevel p.1) p.2 (ud p).1 (ud p).2

/-- update_inventory: store max(0, current + quantity_change) under the key;
this is the only mutation path of the ledger. -/
def updateInv (L : ℕ × ℕ → ℤ) (p : ℕ × ℕ) (delta : ℤ) : ℕ × ℕ → ℤ :=
  fun q => if q = p then max 0 (L p + delta) else L q

/-- random.randint(lo, hi) on ints, encoded over a raw draw d; for lo ≤ hi
the value ranges over exactly [lo, hi]. -/
def randintZ (lo hi : ℤ) (d : ℕ) : ℤ :=
  lo + (d : ℤ) % (hi + 1 - lo)

/-- Inbound branch of generate_quantity: two uniform multipliers (bulk-order
tendency, then stock-shortfall tier), applied to uniform(5, 80), truncated,
with a floor of 3.  u1 u2 u3 in [0,1] are the three uniform draws;
thresholds current < reorder*0.3 / *0.8 / *1.2 are the exact rational
comparisons 10*cur < 3*rlv etc. -/
def inboundQty (c : Cat) (cur : ℤ) (rlv : ℕ) (u1 u2 u3 : ℚ) : ℕ :=
  let m1 : ℚ := if bulkHigh c then 9/10 + u1 * (1/2) else 7/10 + u1 * (1/2)
  let m2 : ℚ :=
    if 10 * cur < 3 * (rlv : ℤ) then 1 + u2 * (4/10)
    else if 10 * cur < 8 * (rlv : ℤ) then 8/10 + u2 * (4/10)
    else if 10 * cur < 12 * (rlv : ℤ) then 6/10 + u2 * (3/10)
    else 1/10 + u2 * (2/10)
  max 3 (Int.toNat (Int.floor ((5 + u3 * 75) * (m1 * m2))))

/-- Sale branch of generate_quantity: max_sale = min(current, 18), 0 when no
stock; conservative caps int(cur*0.2) below the reorder level and int(cur*0.4)
below 1.5x the reorder level; then randint(1, max_sale) for small max_sale, or
the 80/20 small/large split (`small` is the random() < 0.8 draw, d the randint
draw). -/
def saleQty (cur : ℤ) (rlv : ℕ) (d : ℕ) (small : Bool) : ℤ :=
  let ms0 : ℤ := min cur 18
  if ms0 ≤ 0 then 0
  else
    let ms : ℤ :=
      if cur < (rlv : ℤ) then min ms0 (max 1 ((cur.toNat / 5 : ℕ) : ℤ))
      else if 2 * cur < 3 * (rlv : ℤ) then
        min ms0 (max 1 ((2 * cur.toNat / 5 : ℕ) : ℤ))
      else ms0
    if ms ≤ 3 then randintZ 1 ms d
    else if small then randintZ 1 (min 4 ms) d
    else randintZ (min 5 ms) ms d

/-- Adjustment branch of generate_quantity: randint(-10, 10); a negative draw
whose magnitude exceeds current stock is clamped to -current.  (The local
max_adjustment variable of the source is dead and omitted.) -/
def adjQty (cur : ℤ) (d : ℕ) : ℤ :=
  let q := randintZ (-10) 10 d
  if q < 0 ∧ cur < (q.natAbs : ℤ) then -cur else q

/-- status_options lists per transaction type ("delivered" first in each). -/
def statusOptions : TType → List Status
  | TType.inbound =>
      [Status.delivered, Status.shipped, Status.processing, Status.confirmed,
       Status.pending]
  | TType.sale =>
      [Status.delivered, Status.processing, Status.confirmed, Status.pending]
  | TType.adjustment => [Status.delivered, Status.confirmed]

/-- generate_time_aware_status, outcome only: every age bucket gives every
option positive weight, so the support is the full option list; the weighted
choice is modelled by an index draw.  The weights themselves are
deliveredWeight below. -/
def genStatus (t : TType) (_daysAgo : ℕ) (d : ℕ) : Status :=
  (statusOptions t).getD (d % (statusOptions t).length) Status.delivered

/-- status_weights[0] of each transaction type, i.e. the base probability of
"delivered" (the weight lists each sum to 1). -/
def baseDelivered : TType → ℚ
  | TType.inbound => 70/100
  | TType.sale => 85/100
  | TType.adjustment => 95/100

/-- Probability weight that generate_time_aware_status places on "delivered"
for a transaction days_ago = (end_date - date).days old: 0.98 beyond 30 days,
0.90 for 14-30, 0.80 for 7-14, 0.65 for 3-7, 0.35 for 1-3, and the original
per-type base weight for the most recent bucket.  Each adjusted weight vector
sums to 1, so the weight equals the probability. -/
def deliveredWeight (t : TType) (daysAgo : ℕ) : ℚ :=
  if 30 < daysAgo then 98/100
  else if 14 < daysAgo then 90/100
  else if 7 < daysAgo then 80/100
  else if 3 < daysAgo then 65/100
  else if 1 < daysAgo then 35/100
  else baseDelivered t

/-- Monthly seasonal multipliers (self.seasonal_patterns). -/
def seasonalPattern (month : ℕ) : ℚ :=
  [6/10, 7/10, 9/10, 12/10, 14/10, 15/10, 13/10, 11/10, 1, 8/10, 6/10,
   5/10].getD (month - 1) 0

/-- Yearly growth multipliers (self.growth_trends): a dict with keys
2022-2025 only; get_growth_multiplier indexes it directly, so any other year
raises KeyError — modelled as none. -/
def growthTrends (year : ℕ) : Option ℚ :=
  if year = 2022 then some (7/10)
  else if year = 2023 then some (9/10)
  else if year = 2024 then some 1
  else if year = 2025 then some (11/10)
  else none

/-- Day-of-week multipliers (self.dow_patterns, Monday = 0). -/
def dowPattern (dow : ℕ) : ℚ :=
  [3/10, 8/10, 1, 1, 12/10, 4/10, 2/10].getD dow 0

/-- Daily activity level of generate_daily_transactions:
seasonal * growth * dow; none when the growth-trend year lookup fails. -/
def activityMultiplier (month year dow : ℕ) : Option ℚ :=
  (growthTrends year).map (fun g => seasonalPattern month * g * dowPattern dow)

/-- The suffix alphabet of generate_transaction_number
(string.ascii_uppercase + string.digits, 36 characters). -/
def alphabet : List Char := "ABCDEFGHIJKLMNOPQRSTUVWXYZ0123456789".toList

/-- random.choices(chars, k=5): each of the five draws selects one alphabet
character (uniform choice, modelled by an index draw modulo 36). -/
def suffixChars (ds : List ℕ) : List Char :=
  ds.map (fun d => alphabet.getD (d % 36) 'A')

/-- A calendar date as carried by the generator (the datetime objects the
day loop walks through). -/
structure Date where
  y : ℕ
  m : ℕ
  d : ℕ
deriving DecidableEq

/-- Two zero-padded decimal digits, as produced by strftime %y / %m / %d
(each of those fields is below 100 on every real date). -/
def pad2 (n : ℕ) : List Char :=
  [Char.ofNat (48 + n / 10 % 10), Char.ofNat (48 + n % 10)]

/-- date.strftime("%y%m%d"): two-digit year, month, day. -/
def date6 (dt : Date) : List Char :=
  pad2 (dt.y % 100) ++ pad2 dt.m ++ pad2 dt.d

/-- The type_prefix table of generate_transaction_number. -/
def txTag : TType → List Char
  | TType.inbound => ['I', 'N', 'B']
  | TType.sale => ['S', 'A', 'L']
  | TType.adjustment => ['A', 'D', 'J']

/-- generate_transaction_number: "{prefix}-{yymmdd}-{5 random chars}".  The
`sequence` parameter of the source is ignored by the live code (the uuid- and
sequence-based disambiguation is commented out), so it does not appear here. -/
def txNumber (t : TType) (dt : Date) (ds : List ℕ) : List Char :=
  txTag t ++ ['-'] ++ date6 dt ++ ['-'] ++ suffixChars ds

/-- One emitted transaction record.  `sfx` keeps the raw suffix draws and
`pre` the ledger level of (pid, wid) immediately before this transaction's
update_inventory call; both are recorded only so that specifications can
refer to them. -/
structure Tx where
  number : List Char
  pid : ℕ
  wid : ℕ
  qty : ℤ
  ttype : TType
  status : Status
  noteIdx : ℕ
  urgent : Bool
  date : Date
  hour : ℕ
  minute : ℕ
  sfx : List ℕ
  pre : ℤ
deriving DecidableEq

instance : Inhabited Tx :=
  ⟨{ number := [], pid := 0, wid := 0, qty := 0, ttype := TType.sale,
     status := Status.delivered, noteIdx := 0, urgent := false,
     date := ⟨0, 0, 0⟩, hour := 0, minute := 0, sfx := [], pre := 0 }⟩

/-- One InventorySnapshot of record_inventory_snapshot: the date plus a full
copy of the current inventory dict (one row per key). -/
structure Snap where
  day : ℕ
  date : Date
  levels : List ((ℕ × ℕ) × ℤ)
deriving DecidableEq

instance : Inhabited Snap := ⟨{ day := 0, date := ⟨0, 0, 0⟩, levels := [] }⟩

/-- The random draws consumed by one iteration of the per-transaction loop of
generate_daily_transactions: the health-weighted type choice, the
base-demand-weighted category choice (both have all-positive weights, so any
outcome is possible), random.choice over the category's products, the
warehouse draw, the three uniforms and the randint / random() draws of
generate_quantity, the status / note / urgency / timestamp draws, and the
five suffix draws of generate_transaction_number. -/
structure TxDraws where
  t : TType
  c : Cat
  pd : ℕ
  wd : ℕ
  u1 : ℚ
  u2 : ℚ
  u3 : ℚ
  qd : ℕ
  small : Bool
  sd : ℕ
  nd : ℕ
  urg : Bool
  hd : ℕ
  mind : ℕ
  sfx : List ℕ

/-- select_product_for_category: random.choice over the category's product
list. -/
def pickProduct (c : Cat) (d : ℕ) : ℕ :=
  (catProducts c).getD (d % (catProducts c).length) 1

/-- City-bike component products of select_warehouse. -/
def cityPids : List ℕ := [2, 6, 11, 15, 20]

/-- Cargo-bike component products of select_warehouse. -/
def cargoPids : List ℕ := [3, 7, 12, 16]

/-- select_warehouse: weighted choice over {1,2} for city components, {1,3}
for cargo components, {1,2,3} otherwise (all weights positive). -/
def pickWarehouse (pid : ℕ) (d : ℕ) : ℕ :=
  if pid ∈ cityPids then [1, 2].getD (d % 2) 1
  else if pid ∈ cargoPids then [1, 3].getD (d % 2) 1
  else [1, 2, 3].getD (d % 3) 1

/-- generate_quantity: dispatch on the transaction type.  The result is the
signed Python int the function returns (sales and inbound always
non-negative here; adjustments already signed). -/
def genQuantity (t : TType) (c : Cat) (cur : ℤ) (rlv : ℕ) (td : TxDraws) : ℤ :=
  match t with
  | TType.inbound => (inboundQty c cur rlv td.u1 td.u2 td.u3 : ℤ)
  | TType.sale => saleQty cur rlv td.qd td.small
  | TType.adjustment => adjQty cur td.qd

/-- Generator state: the inventory dict, the reorder_history dict (day index
of the last reorder per pair), and the accumulated transactions and
inventory_history (both newest first; exports reverse them). -/
structure GState where
  ledger : ℕ × ℕ → ℤ
  hist : ℕ × ℕ → Option ℕ
  txs : List Tx
  snaps : List Snap

/-- One iteration of the per-transaction loop of generate_daily_transactions:
pick type/category/product/warehouse, generate the inventory-aware quantity,
skip if it is zero, otherwise negate it for sale/adjustment (quantity =
-abs(quantity)), apply it to the ledger and append the emitted record. -/
def applyTxDraw (dt : Date) (ag : ℕ) (st : GState) (td : TxDraws) : GState :=
  let pid := pickProduct td.c td.pd
  let wid := pickWarehouse pid td.wd
  let cur := st.ledger (pid, wid)
  let q0 := genQuantity td.t td.c cur (reorderLevel pid) td
  if q0 = 0 then st
  else
    let q : ℤ :=
      if td.t = TType.sale ∨ td.t = TType.adjustment then -(q0.natAbs : ℤ)
      else q0
    let tx : Tx :=
      { number := txNumber td.t dt td.sfx
        pid := pid
        wid := wid
        qty := q
        ttype := td.t
        status := genStatus td.t ag td.sd
        noteIdx := td.nd
        urgent := td.urg
        date := dt
        hour := 6 + td.hd % 13
        minute := td.mind % 60
        sfx := td.sfx
        pre := cur }
    { st with ledger := updateInv st.ledger (pid, wid) q, txs := tx :: st.txs }

/-- (date - last_reorder).days needed before a new reorder: 5 below the
reorder level, else 7 (generate_reorder_transactions). -/
def cooldownDays (cur rlv : ℤ) : ℕ :=
  if cur < rlv then 5 else 7

/-- The needs_reorder decision of generate_reorder_transactions for one pair:
stock below 1.5x the reorder level, and either no recorded last reorder or at
least cooldown_days elapsed since it.  `today` and the recorded day are day
indices of the simulation (consecutive calendar days). -/
def needsReorder (h : Option ℕ) (today : ℕ) (cur rlv : ℤ) : Bool :=
  if 2 * cur < 3 * rlv then
    match h with
    | none => true
    | some l => decide (cooldownDays cur rlv ≤ today - l)
  else false

/-- Reorder quantity sizing: shortage = max(1, 1.2*reorder_level - current),
scaled by uniform(1.0,1.2) / uniform(0.8,1.0) / uniform(0.4,0.6) depending on
how depleted the stock is, truncated with int(). -/
def reorderQty (cur : ℤ) (rlv : ℕ) (u : ℚ) : ℕ :=
  let shortage : ℚ := max 1 ((12/10) * (rlv : ℚ) - (cur : ℚ))
  if 10 * cur < 3 * (rlv : ℤ) then
    Int.toNat (Int.floor (shortage * (1 + u * (2/10))))
  else if 10 * cur < 8 * (rlv : ℤ) then
    Int.toNat (Int.floor (shortage * (8/10 + u * (2/10))))
  else
    Int.toNat (Int.floor (shortage * (4/10 + u * (2/10))))

/-- Draws consumed per pair by generate_reorder_transactions: the sizing
uniform, status draw, timestamp draws and the five suffix draws. -/
structure RDraws where
  u : ℚ
  sd : ℕ
  hd : ℕ
  mind : ℕ
  sfx : List ℕ

/-- One pair of the loop body of generate_reorder_transactions: if the pair
needs a reorder, size the quantity, emit the inbound transaction, apply it
through update_inventory and record today in reorder_history.  (The urgency
label only flavors the note string and is not modelled.) -/
def applyReorderPair (dayIdx : ℕ) (dt : Date) (ag : ℕ) (rd : ℕ × ℕ → RDraws)
    (st : GState) (p : ℕ × ℕ) : GState :=
  let cur := st.ledger p
  let rlv := reorderLevel p.1
  if needsReorder (st.hist p) dayIdx cur (rlv : ℤ) then
    let rq := reorderQty cur rlv (rd p).u
    let tx : Tx :=
      { number := txNumber TType.inbound dt (rd p).sfx
        pid := p.1
        wid := p.2
        qty := (rq : ℤ)
        ttype := TType.inbound
        status := genStatus TType.inbound ag (rd p).sd
        noteIdx := 0
        urgent := false
        date := dt
        hour := 6 + (rd p).hd % 13
        minute := (rd p).mind % 60
        sfx := (rd p).sfx
        pre := cur }
    { st with
        ledger := updateInv st.ledger p (rq : ℤ)
        hist := fun q => if q = p then some dayIdx else st.hist q
        txs := tx :: st.txs }
  else st

/-- cleanup_reorder_history for one entry: drop it when the recorded date is
strictly older than current_date - 30 days. -/
def pruneEntry (h : Option ℕ) (d : ℕ) : Option ℕ :=
  match h with
  | some l => if l + 30 < d then none else some l
  | none => none

/-- Per-day oracle: whether the reorder branch fires today (business day and
the reorder-probability draw), the per-pair reorder draws, and one TxDraws
bundle per iteration of the transaction loop (the Poisson-drawn
num_transactions is the list length; the source guarantees it is at least
1). -/
structure DayOracle where
  doReorder : Bool
  rd : ℕ × ℕ → RDraws
  txds : List TxDraws

/-- One day of generate_all_transactions / generate_daily_transactions:
optional reorder pass over all pairs, the per-transaction loop, one
inventory snapshot of every ledger key at end of day, then — every 30th day —
cleanup_reorder_history. -/
def dayStep (dates : ℕ → Date) (total : ℕ) (o : ℕ → DayOracle) (st : GState)
    (i : ℕ) : GState :=
  let dt := dates i
  let ag := total - i
  let st1 :=
    if (o i).doReorder then
      pairsList.foldl (applyReorderPair i dt ag (o i).rd) st
    else st
  let st2 := (o i).txds.foldl (applyTxDraw dt ag) st1
  let snap : Snap :=
    { day := i, date := dt, levels := pairsList.map (fun p => (p, st2.ledger p)) }
  let st3 := { st2 with snaps := snap :: st2.snaps }
  if i % 30 = 0 then { st3 with hist := fun p => pruneEntry (st3.hist p) i }
  else st3

/-- Initial state: inventory seeded with the natural-valued table L0, empty
reorder history, no transactions, no snapshots.  The real program's table is
initLedger (values of initialize_inventory_levels, all naturals); the run
theorems quantify over every natural-valued table, which covers it. -/
def initState (L0 : ℕ × ℕ → ℕ) : GState :=
  { ledger := fun p => (L0 p : ℤ)
    hist := fun _ => none
    txs := []
    snaps := [] }

/-- The day loop of generate_all_transactions: n simulated days, day index i
running from 0; dates i is the calendar date of day i and total the
(end_date - start_date).days count, so total - i is the days_ago age used by
generate_time_aware_status. -/
def runGen (L0 : ℕ × ℕ → ℕ) (dates : ℕ → Date) (total : ℕ)
    (o : ℕ → DayOracle) : ℕ → GState
  | 0 => initState L0
  | n + 1 => dayStep dates total o (runGen L0 dates total o n) n

/-- The products export rows (id and reorder level; the remaining columns are
constants of generate_products_data). -/
def productsTable : List (ℕ × ℕ) :=
  (List.range 41).map (fun i => (i + 1, reorderLevel (i + 1)))

/-- The warehouses export rows (ids; the remaining columns are constants of
generate_warehouses_data). -/
def warehousesTable : List ℕ := [1, 2, 3]

/-- The four export files of generate_data: the transaction stream, the
products file, the warehouses file and the daily inventory history.  The
subsequent pandas sort / CSV rendering are fixed functions of these rows. -/
def exportFiles (L0 : ℕ × ℕ → ℕ) (dates : ℕ → Date) (total : ℕ)
    (o : ℕ → DayOracle) (n : ℕ) :
    List Tx × List (ℕ × ℕ) × List ℕ × List Snap :=
  ((runGen L0 dates total o n).txs.reverse, productsTable, warehousesTable,
   (runGen L0 dates total o n).snaps.reverse)

/-- Single-pair projection of the reorder subsystem (generate_reorder_-
transactions plus cleanup_reorder_history) for claim C3.  The Python loop
reads and writes reorder_history only under the key of the pair being
checked, so per pair the evolution is exactly this machine: each day the
oracle says whether the eligibility check runs (business day and probability
draw) and what the pair's current stock is at that moment; an emission
records (day, stock-at-check) and sets the history entry; every 30th day the
entry is pruned exactly as cleanup_reorder_history does. -/
def reorderCheckStep (rlv : ℤ) (st : Option ℕ × List (ℕ × ℤ)) (i : ℕ)
    (chk : Bool) (stock : ℤ) : Option ℕ × List (ℕ × ℤ) :=
  if chk ∧ needsReorder st.1 i stock rlv then (some i, (i, stock) :: st.2)
  else st

/-- Day loop of the single-pair reorder machine: n days of checks and
pruning; returns the history entry and the emission list (newest first). -/
def runReorder (rlv : ℤ) (inputs : ℕ → Bool × ℤ) : ℕ → Option ℕ × List (ℕ × ℤ)
  | 0 => (none, [])
  | n + 1 =>
    let st := runReorder rlv inputs n
    let st1 := reorderCheckStep rlv st n (inputs n).1 (inputs n).2
    if n % 30 = 0 then (pruneEntry st1.1 n, st1.2) else st1

/-- Spacing demanded by the cooldown between an emission `a` and any earlier
emission `b` of the same pair: the gap is at least the cooldown computed from
the stock at `a`'s (the later) eligibility check. -/
def cooldownRel (rlv : ℤ) (a b : ℕ × ℤ) : Prop :=
  b.1 + cooldownDays a.2 rlv ≤ a.1

/-- Specification predicate on one emitted record: an emitted sale is
negative, bounded by the pre-transaction stock of its pair, and only emitted
when that stock was positive; and every record's number has the
generate_transaction_number shape. -/
def TxOK (tx : Tx) : Prop :=
  (tx.ttype = TType.sale →
    tx.qty < 0 ∧ (tx.qty.natAbs : ℤ) ≤ tx.pre ∧ 0 < tx.pre) ∧
  tx.number = txNumber tx.ttype tx.date tx.sfx

/-- Specification predicate on one snapshot: all recorded levels are
non-negative and the rows cover exactly the ledger's keys. -/
def SnapOK (s : Snap) : Prop :=
  (∀ pv ∈ s.levels, 0 ≤ pv.2) ∧ s.levels.map Prod.fst = pairsList

/-- Run invariant: the ledger is everywhere non-negative, every emitted
record satisfies TxOK and every snapshot satisfies SnapOK. -/
def GenInv (st : GState) : Prop :=
  (∀ p, 0 ≤ st.ledger p) ∧ (∀ tx ∈ st.txs, TxOK tx) ∧
  (∀ s ∈ st.snaps, SnapOK s)

/-- Relation between the single-pair reorder history entry and the emission
list after n days: a live entry names the newest emission's day, and a
pruned / absent entry means either no emission yet or one more than 30 days
old. -/
def histOK (n : ℕ) (h : Option ℕ) (es : List (ℕ × ℤ)) : Prop :=
  match h, es with
  | some l, e :: _ => e.1 = l ∧ l < n
  | some _, [] => False
  | none, [] => True
  | none, e :: _ => e.1 + 30 < n

/-- Invariant of the single-pair reorder machine: emissions are
cooldown-spaced and the history entry tracks them as histOK describes. -/
def ReorderInv (rlv : ℤ) (n : ℕ) (st : Option ℕ × List (ℕ × ℤ)) : Prop :=
  List.Pairwise (cooldownRel rlv) st.2 ∧ histOK n st.1 st.2

/-- Concrete fixture initial ledger: every pair starts exactly at its
reorder level (a value initStock can produce, since it clamps from below at
the reorder level). -/
def ldgA : ℕ × ℕ → ℕ := fun p => reorderLevel p.1

/-- Concrete fixture date (2024-01-15). -/
def dateA : Date := ⟨2024, 1, 15⟩

/-- Concrete fixture date function. -/
def datesA : ℕ → Date := fun _ => dateA

/-- Concrete fixture reorder draws. -/
def rdZero : ℕ × ℕ → RDraws :=
  fun _ => { u := 0, sd := 0, hd := 0, mind := 0, sfx := [0, 0, 0, 0, 0] }

/-- Concrete fixture: a sale attempt on product 1 / warehouse 1 with given
suffix draws. -/
def saleDraw (sfxd : List ℕ) : TxDraws :=
  { t := TType.sale, c := Cat.motors, pd := 0, wd := 0, u1 := 0, u2 := 0,
    u3 := 0, qd := 0, small := true, sd := 0, nd := 0, urg := false, hd := 0,
    mind := 0, sfx := sfxd }

/-- Concrete fixture: an adjustment on product 10 / warehouse 3 whose
randint(-10,10) draw comes out +10. -/
def adjDraw : TxDraws :=
  { t := TType.adjustment, c := Cat.frames, pd := 0, wd := 2, u1 := 0, u2 := 0,
    u3 := 0, qd := 20, small := true, sd := 0, nd := 0, urg := false, hd := 0,
    mind := 0, sfx := [0, 0, 0, 0, 0] }

/-- One day, two sale attempts with identical suffix draws. -/
def oracleDup : ℕ → DayOracle :=
  fun _ => { doReorder := false, rd := rdZero,
             txds := [saleDraw [0, 0, 0, 0, 0], saleDraw [0, 0, 0, 0, 0]] }

/-- One-day run in which two same-day sales draw the same 5-character
suffix. -/
def runDup : GState := runGen ldgA datesA 1095 oracleDup 1

/-- One day, two sale attempts with distinct suffix draws. -/
def oracleDistinct : ℕ → DayOracle :=
  fun _ => { doReorder := false, rd := rdZero,
             txds := [saleDraw [0, 0, 0, 0, 0], saleDraw [1, 0, 0, 0, 0]] }

/-- One-day run in which the two same-day sales draw distinct suffixes. -/
def runDistinct : GState := runGen ldgA datesA 1095 oracleDistinct 1

/-- One day, a single sale attempt. -/
def oracleSale : ℕ → DayOracle :=
  fun _ => { doReorder := false, rd := rdZero, txds := [saleDraw [2, 0, 0, 0, 0]] }

/-- One-day run emitting a single sale. -/
def runSale : GState := runGen ldgA datesA 1095 oracleSale 1

/-- One day, a single adjustment whose draw is +10 against a stock of 8. -/
def oracleAdj : ℕ → DayOracle :=
  fun _ => { doReorder := false, rd := rdZero, txds := [adjDraw] }

/-- One-day run showing the adjustment emission path. -/
def runAdj : GState := runGen ldgA datesA 1095 oracleAdj 1

/-! Helper lemmas. -/

theorem foldl_pres {σ α : Type _} (P : σ → Prop) (f : σ → α → σ)
    (h : ∀ s a, P s → P (f s a)) :
    ∀ (l : List α) (s : σ), P s → P (l.foldl f s) := by
  intro l
  induction l with
  | nil => intro s hs; exact hs
  | cons a l ih => intro s hs; exact ih _ (h s a hs)

theorem randintZ_range (lo hi lo2 hi2 : ℤ) (d : ℕ) (h : lo ≤ hi)
    (h2 : lo2 ≤ lo) (h3 : hi ≤ hi2) :
    lo2 ≤ randintZ lo hi d ∧ randintZ lo hi d ≤ hi2 := by
  unfold randintZ
  have hpos : (0 : ℤ) < hi + 1 - lo := by omega
  have hn : 0 ≤ (d : ℤ) % (hi + 1 - lo) := Int.emod_nonneg _ (by omega)
  have hl : (d : ℤ) % (hi + 1 - lo) < hi + 1 - lo := Int.emod_lt_of_pos _ hpos
  omega

theorem saleQty_of_nonpos (cur : ℤ) (rlv : ℕ) (d : ℕ) (b : Bool)
    (h : cur ≤ 0) : saleQty cur rlv d b = 0 := by
  simp only [saleQty]
  rw [if_pos (le_trans (min_le_left cur 18) h)]

theorem saleQty_bounds (cur : ℤ) (rlv : ℕ) (d : ℕ) (b : Bool) (h : 0 < cur) :
    1 ≤ saleQty cur rlv d b ∧ saleQty cur rlv d b ≤ cur := by
  simp only [saleQty]
  rw [if_neg (by omega : ¬ min cur 18 ≤ 0)]
  split_ifs <;>
    exact randintZ_range _ _ _ _ d (by omega) (by omega) (by omega)

theorem cooldownDays_pos (cur rlv : ℤ) : 1 ≤ cooldownDays cur rlv := by
  unfold cooldownDays; split <;> omega

theorem cooldownDays_le_seven (cur rlv : ℤ) : cooldownDays cur rlv ≤ 7 := by
  unfold cooldownDays; split <;> omega

theorem histOK_mono (n : ℕ) (h : Option ℕ) (es : List (ℕ × ℤ))
    (hh : histOK n h es) : histOK (n + 1) h es := by
  cases h <;> cases es <;> simp only [histOK] at hh ⊢ <;> omega

theorem needsReorder_true {h : Option ℕ} {today : ℕ} {cur rlv : ℤ}
    (hnr : needsReorder h today cur rlv = true) :
    2 * cur < 3 * rlv ∧
      ∀ l, h = some l → cooldownDays cur rlv ≤ today - l := by
  unfold needsReorder at hnr
  have hcond : 2 * cur < 3 * rlv := by
    by_contra hlt
    rw [if_neg hlt] at hnr
    exact Bool.false_ne_true hnr
  refine ⟨hcond, ?_⟩
  intro l hl
  rw [if_pos hcond, hl] at hnr
  exact of_decide_eq_true hnr

theorem reorderStep_inv (rlv : ℤ) (st : Option ℕ × List (ℕ × ℤ)) (n : ℕ)
    (chk : Bool) (stock : ℤ) (h : ReorderInv rlv n st) :
    ReorderInv rlv (n + 1) (reorderCheckStep rlv st n chk stock) := by
  obtain ⟨h0, es⟩ := st
  obtain ⟨hp, hh⟩ := h
  unfold reorderCheckStep
  split
  case isTrue hc =>
    obtain ⟨hchk, hnr⟩ := hc
    obtain ⟨hcond, hcool⟩ := needsReorder_true hnr
    refine ⟨List.Pairwise.cons ?_ hp, rfl, Nat.lt_succ_self n⟩
    intro e he
    show e.1 + cooldownDays stock rlv ≤ n
    have hcd7 := cooldownDays_le_seven stock rlv
    cases h0 with
    | some l =>
      have hcd : cooldownDays stock rlv ≤ n - l := hcool l rfl
      cases es with
      | nil => exact hh.elim
      | cons e0 tl =>
        simp only [histOK] at hh
        obtain ⟨he0, hln⟩ := hh
        rcases List.mem_cons.mp he with rfl | he
        · omega
        · have hrel := (List.pairwise_cons.mp hp).1 e he
          have := cooldownDays_pos e0.2 rlv
          unfold cooldownRel at hrel
          omega
    | none =>
      cases es with
      | nil => exact absurd he (List.not_mem_nil e)
      | cons e0 tl =>
        simp only [histOK] at hh
        rcases List.mem_cons.mp he with rfl | he
        · omega
        · have hrel := (List.pairwise_cons.mp hp).1 e he
          have := cooldownDays_pos e0.2 rlv
          unfold cooldownRel at hrel
          omega
  case isFalse =>
    exact ⟨hp, histOK_mono n h0 es hh⟩

theorem prune_inv (rlv : ℤ) (n : ℕ) (st : Option ℕ × List (ℕ × ℤ))
    (h : ReorderInv rlv (n + 1) st) :
    ReorderInv rlv (n + 1) (pruneEntry st.1 n, st.2) := by
  obtain ⟨h0, es⟩ := st
  obtain ⟨hp, hh⟩ := h
  refine ⟨hp, ?_⟩
  show histOK (n + 1) (pruneEntry h0 n) es
  cases h0 with
  | none => simp only [pruneEntry]; exact hh
  | some l =>
    simp only [pruneEntry]
    split
    next hlt =>
      cases es with
      | nil => simp only [histOK] at hh
      | cons e0 tl =>
        simp only [histOK] at hh ⊢
        omega
    next => exact hh

theorem runReorder_inv (rlv : ℤ) (inputs : ℕ → Bool × ℤ) :
    ∀ n, ReorderInv rlv n (runReorder rlv inputs n) := by
  intro n
  induction n with
  | zero => exact ⟨List.Pairwise.nil, trivial⟩
  | succ n ih =>
    simp only [runReorder]
    have h1 := reorderStep_inv rlv (runReorder rlv inputs n) n
      (inputs n).1 (inputs n).2 ih
    split
    · exact prune_inv rlv n _ h1
    · exact h1

theorem updateInv_nonneg (L : ℕ × ℕ → ℤ) (p : ℕ × ℕ) (delta : ℤ)
    (h : ∀ q, 0 ≤ L q) : ∀ q, 0 ≤ updateInv L p delta q := by
  intro q
  unfold updateInv
  split
  · exact le_max_left _ _
  · exact h q

theorem map_fst_levels (L : ℕ × ℕ → ℤ) :
    (pairsList.map (fun p => (p, L p))).map Prod.fst = pairsList := by
  rw [List.map_map]
  exact List.map_id _

theorem applyTxDraw_inv (dt : Date) (ag : ℕ) (st : GState) (td : TxDraws)
    (h : GenInv st) : GenInv (applyTxDraw dt ag st td) := by
  obtain ⟨hL, hT, hS⟩ := h
  simp only [applyTxDraw]
  split
  · exact ⟨hL, hT, hS⟩
  case isFalse hq0 =>
    refine ⟨updateInv_nonneg _ _ _ hL, ?_, hS⟩
    intro tx htx
    rcases List.mem_cons.mp htx with rfl | hmem
    · constructor
      · intro hsale
        dsimp only at hsale ⊢
        rw [hsale] at hq0 ⊢
        simp only [genQuantity] at hq0 ⊢
        have hcur : 0 < st.ledger (pickProduct td.c td.pd,
            pickWarehouse (pickProduct td.c td.pd) td.wd) := by
          by_contra hc
          push_neg at hc
          exact hq0 (saleQty_of_nonpos _ _ _ _ hc)
        obtain ⟨hlo, hhi⟩ := saleQty_bounds
          (st.ledger (pickProduct td.c td.pd,
            pickWarehouse (pickProduct td.c td.pd) td.wd))
          (reorderLevel (pickProduct td.c td.pd)) td.qd td.small hcur
        simp only [true_or, if_true]
        refine ⟨by omega, by omega, hcur⟩
      · rfl
    · exact hT tx hmem

theorem applyReorderPair_inv (i : ℕ) (dt : Date) (ag : ℕ)
    (rd : ℕ × ℕ → RDraws) (st : GState) (p : ℕ × ℕ) (h : GenInv st) :
    GenInv (applyReorderPair i dt ag rd st p) := by
  obtain ⟨hL, hT, hS⟩ := h
  simp only [applyReorderPair]
  split
  · refine ⟨updateInv_nonneg _ _ _ hL, ?_, hS⟩
    intro tx htx
    rcases List.mem_cons.mp htx with rfl | hmem
    · exact ⟨fun hsale => absurd hsale (by simp), rfl⟩
    · exact hT tx hmem
  · exact ⟨hL, hT, hS⟩

theorem applyTxDraw_snaps (dt : Date) (ag : ℕ) (st : GState) (td : TxDraws) :
    (applyTxDraw dt ag st td).snaps = st.snaps := by
  simp only [applyTxDraw]
  split <;> rfl

theorem applyReorderPair_snaps (i : ℕ) (dt : Date) (ag : ℕ)
    (rd : ℕ × ℕ → RDraws) (st : GState) (p : ℕ × ℕ) :
    (applyReorderPair i dt ag rd st p).snaps = st.snaps := by
  simp only [applyReorderPair]
  split <;> rfl

theorem foldl_tx_snaps (dt : Date) (ag : ℕ) :
    ∀ (l : List TxDraws) (st : GState),
      (l.foldl (applyTxDraw dt ag) st).snaps = st.snaps := by
  intro l
  induction l with
  | nil => intro st; rfl
  | cons a l ih =>
    intro st
    rw [List.foldl_cons, ih, applyTxDraw_snaps]

theorem foldl_reorder_snaps (i : ℕ) (dt : Date) (ag : ℕ)
    (rd : ℕ × ℕ → RDraws) :
    ∀ (l : List (ℕ × ℕ)) (st : GState),
      (l.foldl (applyReorderPair i dt ag rd) st).snaps = st.snaps := by
  intro l
  induction l with
  | nil => intro st; rfl
  | cons a l ih =>
    intro st
    rw [List.foldl_cons, ih, applyReorderPair_snaps]

theorem snapshotAppend_inv (st : GState) (i : ℕ) (dt : Date) (h : GenInv st) :
    GenInv { st with snaps :=
      { day := i, date := dt,
        levels := pairsList.map (fun p => (p, st.ledger p)) } :: st.snaps } := by
  obtain ⟨hL, hT, hS⟩ := h
  refine ⟨hL, hT, ?_⟩
  intro s hs
  rcases List.mem_cons.mp hs with rfl | hmem
  · constructor
    · intro pv hpv
      obtain ⟨p, hp, rfl⟩ := List.mem_map.mp hpv
      exact hL p
    · exact map_fst_levels _
  · exact hS s hmem

theorem histSet_inv (st : GState) (f : ℕ × ℕ → Option ℕ) (h : GenInv st) :
    GenInv { st with hist := f } := h

theorem dayStep_inv (dates : ℕ → Date) (total : ℕ) (o : ℕ → DayOracle)
    (st : GState) (i : ℕ) (h : GenInv st) :
    GenInv (dayStep dates total o st i) := by
  simp only [dayStep]
  have h1 : GenInv (if (o i).doReorder then
      pairsList.foldl (applyReorderPair i (dates i) (total - i) (o i).rd) st
    else st) := by
    split
    · exact foldl_pres GenInv _
        (fun s a hs => applyReorderPair_inv i (dates i) (total - i) (o i).rd s a hs)
        pairsList st h
    · exact h
  have h2 := foldl_pres GenInv _
    (fun s a hs => applyTxDraw_inv (dates i) (total - i) s a hs)
    (o i).txds _ h1
  have h3 := snapshotAppend_inv _ i (dates i) h2
  split
  · exact histSet_inv _ _ h3
  · exact h3

theorem initState_inv (L0 : ℕ × ℕ → ℕ) : GenInv (initState L0) := by
  refine ⟨?_, ?_, ?_⟩
  · intro p
    exact Int.natCast_nonneg _
  · intro tx htx
    exact absurd htx (List.not_mem_nil tx)
  · intro s hs
    exact absurd hs (List.not_mem_nil s)

theorem runGen_inv (L0 : ℕ × ℕ → ℕ) (dates : ℕ → Date) (total : ℕ)
    (o : ℕ → DayOracle) : ∀ n, GenInv (runGen L0 dates total o n) := by
  intro n
  induction n with
  | zero => exact initState_inv L0
  | succ n ih => exact dayStep_inv dates total o _ n ih

theorem dayStep_snaps_days (dates : ℕ → Date) (total : ℕ) (o : ℕ → DayOracle)
    (st : GState) (i : ℕ) :
    (dayStep dates total o st i).snaps.map Snap.day =
      i :: st.snaps.map Snap.day := by
  have hs2 : ((o i).txds.foldl (applyTxDraw (dates i) (total - i))
      (if (o i).doReorder then
        pairsList.foldl (applyReorderPair i (dates i) (total - i) (o i).rd) st
      else st)).snaps = st.snaps := by
    rw [foldl_tx_snaps]
    split
    · rw [foldl_reorder_snaps]
    · rfl
  simp only [dayStep]
  split <;> simp only [List.map_cons, hs2]

theorem runGen_snaps_days (L0 : ℕ × ℕ → ℕ) (dates : ℕ → Date)
    (total : ℕ) (o : ℕ → DayOracle) :
    ∀ n, (runGen L0 dates total o n).snaps.map Snap.day =
      (List.range n).reverse := by
  intro n
  induction n with
  | zero => rfl
  | succ n ih =>
    simp only [runGen]
    rw [dayStep_snaps_days, ih, List.range_succ, List.reverse_append]
    rfl

theorem txTag_length (t : TType) : (txTag t).length = 3 := by
  cases t <;> rfl

theorem txTag_inj {t1 t2 : TType} (h : txTag t1 = txTag t2) : t1 = t2 := by
  cases t1 <;> cases t2 <;> first | rfl | exact absurd h (by decide)

theorem date6_length (dt : Date) : (date6 dt).length = 6 := rfl

theorem txNumber_parts {t1 t2 : TType} {d1 d2 : Date} {s1 s2 : List ℕ}
    (h : txNumber t1 d1 s1 = txNumber t2 d2 s2) :
    t1 = t2 ∧ date6 d1 = date6 d2 ∧ suffixChars s1 = suffixChars s2 := by
  unfold txNumber at h
  obtain ⟨h1, hsfx⟩ := List.append_inj h
    (by simp [List.length_append, txTag_length, date6_length])
  obtain ⟨h2, _⟩ := List.append_inj h1
    (by simp [List.length_append, txTag_length, date6_length])
  obtain ⟨h3, hdt⟩ := List.append_inj h2
    (by simp [List.length_append, txTag_length])
  obtain ⟨h4, _⟩ := List.append_inj h3 (by simp [txTag_length])
  exact ⟨txTag_inj h4, hdt, hsfx⟩

/-- C1: for every (product_id, warehouse_id) pair and at every point of a
generation run — in particular in every recorded InventorySnapshot — the
ledger's inventory level is non-negative: update_inventory stores
max(0, current + delta) (updateInv), initialization is non-negative, and
every ledger mutation of the simulator (ordinary transactions and reorders)
goes through updateInv, so no draw sequence can produce a negative stock
value, in the final ledger or in any snapshot. -/
theorem C1_nonneg (L0 : ℕ × ℕ → ℕ) (dates : ℕ → Date) (total : ℕ)
    (o : ℕ → DayOracle) (n : ℕ) :
    (∀ p, 0 ≤ (runGen L0 dates total o n).ledger p) ∧
    (∀ s ∈ (runGen L0 dates total o n).snaps, ∀ pv ∈ s.levels, 0 ≤ pv.2) := by
  obtain ⟨h1, _, h3⟩ := runGen_inv L0 dates total o n
  exact ⟨h1, fun s hs => (h3 s hs).1⟩

/-- Witness for C1 at a concrete one-day run: the recorded snapshot exists
and all its levels are non-negative. -/
theorem C1_nonneg_witness :
    runDup.snaps.headI ∈ runDup.snaps ∧
    (∀ pv ∈ runDup.snaps.headI.levels, 0 ≤ pv.2) :=
  ⟨by decide,
   (C1_nonneg ldgA datesA 1095 oracleDup 1).2 runDup.snaps.headI (by decide)⟩

/-- C2: every emitted sale transaction has negative quantity_change whose
absolute value is at most the pair's ledger level immediately before the
transaction's inventory update (recorded as Tx.pre), and a sale is only
emitted when that level was positive — at level 0 generate_quantity returns 0
and the loop skips the transaction. -/
theorem C2_sale_capped (L0 : ℕ × ℕ → ℕ) (dates : ℕ → Date) (total : ℕ)
    (o : ℕ → DayOracle) (n : ℕ) (tx : Tx)
    (htx : tx ∈ (runGen L0 dates total o n).txs)
    (hs : tx.ttype = TType.sale) :
    tx.qty < 0 ∧ (tx.qty.natAbs : ℤ) ≤ tx.pre ∧ 0 < tx.pre :=
  ((runGen_inv L0 dates total o n).2.1 tx htx).1 hs

/-- Witness for C2 at a concrete one-day run emitting a single sale. -/
theorem C2_sale_capped_witness :
    runSale.txs.headI ∈ runSale.txs ∧ runSale.txs.headI.ttype = TType.sale ∧
    (runSale.txs.headI.qty < 0 ∧
      (runSale.txs.headI.qty.natAbs : ℤ) ≤ runSale.txs.headI.pre ∧
      0 < runSale.txs.headI.pre) :=
  ⟨by decide, by decide,
   C2_sale_capped ldgA datesA 1095 oracleSale 1 runSale.txs.headI
     (by decide) (by decide)⟩

/-- C3: for every (product, warehouse) pair, any two reorder emissions are at
least cooldown-days apart, where the cooldown is computed (5 if stock is
below the reorder level, else 7) at the later emission's eligibility check;
the emission list of the single-pair reorder machine is pairwise
cooldown-spaced for every day count, every stock trajectory and every
check/prune schedule — cleanup_reorder_history (pruneEntry every 30th day)
never breaks the spacing because it only discards entries older than 30
days. -/
theorem C3_reorder_cooldown (rlv : ℤ) (inputs : ℕ → Bool × ℤ) (n : ℕ) :
    List.Pairwise (cooldownRel rlv) (runReorder rlv inputs n).2 :=
  (runReorder_inv rlv inputs n).1

/-- C4: the generator's output is a function of the random stream and the
date range alone: two runs with equal initialization draws, equal dates,
equal total-day count, equal day oracles and equal day counts produce equal
export files.  The Python module seeds random and numpy once (seed 42), so
equal seeds give equal streams; datetime.now() enters only through the date
range, which the claim fixes; the subsequent pandas sort and CSV rendering
are fixed functions of these rows. -/
theorem C4_determinism (L01 L02 : ℕ × ℕ → ℕ) (dates1 dates2 : ℕ → Date)
    (total1 total2 : ℕ) (o1 o2 : ℕ → DayOracle) (n1 n2 : ℕ)
    (h1 : L01 = L02) (h2 : dates1 = dates2) (h3 : total1 = total2)
    (h4 : o1 = o2) (h5 : n1 = n2) :
    exportFiles L01 dates1 total1 o1 n1 = exportFiles L02 dates2 total2 o2 n2 := by
  subst h1 h2 h3 h4 h5
  rfl

/-- Witness for C4 at concrete equal inputs. -/
theorem C4_determinism_witness :
    ldgA = ldgA ∧ datesA = datesA ∧ (1095 : ℕ) = 1095 ∧
    oracleDup = oracleDup ∧ (1 : ℕ) = 1 ∧
    exportFiles ldgA datesA 1095 oracleDup 1 =
      exportFiles ldgA datesA 1095 oracleDup 1 :=
  ⟨rfl, rfl, rfl, rfl, rfl,
   C4_determinism ldgA ldgA datesA datesA 1095 1095 oracleDup oracleDup
     1 1 rfl rfl rfl rfl rfl⟩

/-- C9: a run over n simulated days records exactly one InventorySnapshot per
day — the snapshot days are exactly the day indices 0..n-1, the count equals
n — and every snapshot's rows cover exactly the ledger's key set (all
(product, warehouse) pairs, which never changes after initialization). -/
theorem C9_snapshots (L0 : ℕ × ℕ → ℕ) (dates : ℕ → Date) (total : ℕ)
    (o : ℕ → DayOracle) (n : ℕ) :
    (runGen L0 dates total o n).snaps.map Snap.day = (List.range n).reverse ∧
    (runGen L0 dates total o n).snaps.length = n ∧
    ∀ s ∈ (runGen L0 dates total o n).snaps,
      s.levels.map Prod.fst = pairsList := by
  have hd := runGen_snaps_days L0 dates total o n
  refine ⟨hd, ?_, ?_⟩
  · have := congrArg List.length hd
    simpa using this
  · intro s hs
    exact ((runGen_inv L0 dates total o n).2.2 s hs).2

/-- Witness for C9 at a concrete one-day run. -/
theorem C9_snapshots_witness :
    runDup.snaps.headI ∈ runDup.snaps ∧
    runDup.snaps.map Snap.day = (List.range 1).reverse ∧
    runDup.snaps.length = 1 ∧
    runDup.snaps.headI.levels.map Prod.fst = pairsList :=
  ⟨by decide, (C9_snapshots ldgA datesA 1095 oracleDup 1).1,
   (C9_snapshots ldgA datesA 1095 oracleDup 1).2.1,
   (C9_snapshots ldgA datesA 1095 oracleDup 1).2.2 runDup.snaps.headI
     (by decide)⟩

/-- C5 counterexample: transaction numbers are not guaranteed unique within a
run.  generate_transaction_number ignores its sequence parameter and uses
only a 5-character random suffix, so two same-type transactions of the same
day whose suffix draws coincide — a possible outcome of random.choices —
receive the same number: in this concrete one-day run two emitted sales
carry identical numbers. -/
theorem C5_counterexample : ¬ (runDup.txs.map Tx.number).Nodup := by decide

/-- C5 (amended): transaction numbers of a run are unique provided all
same-type, same-rendered-day transactions draw distinct 5-character
suffixes; equivalently, two distinct emitted transactions can only collide
on transaction_number if they share the type, the rendered date and the
rendered suffix (the type prefix and the YYMMDD field separate all other
pairs). -/
theorem C5_amended_unique (L0 : ℕ × ℕ → ℕ) (dates : ℕ → Date) (total : ℕ)
    (o : ℕ → DayOracle) (n : ℕ)
    (h : (runGen L0 dates total o n).txs.Pairwise
      (fun a b => a.ttype = b.ttype → date6 a.date = date6 b.date →
        suffixChars a.sfx ≠ suffixChars b.sfx)) :
    ((runGen L0 dates total o n).txs.map Tx.number).Nodup := by
  have hstruct : ∀ tx ∈ (runGen L0 dates total o n).txs,
      tx.number = txNumber tx.ttype tx.date tx.sfx :=
    fun tx htx => ((runGen_inv L0 dates total o n).2.1 tx htx).2
  have hne : (runGen L0 dates total o n).txs.Pairwise
      (fun a b => a.number ≠ b.number) := by
    refine h.imp_of_mem ?_
    intro a b ha hb hab hnum
    rw [hstruct a ha, hstruct b hb] at hnum
    obtain ⟨ht, hd, hs⟩ := txNumber_parts hnum
    exact hab ht hd hs
  exact hne.map Tx.number (fun a b hab => hab)

/-- Witness for C5 (amended) at a concrete one-day run with two sales whose
suffix draws differ. -/
theorem C5_amended_unique_witness :
    runDistinct.txs.Pairwise
      (fun a b => a.ttype = b.ttype → date6 a.date = date6 b.date →
        suffixChars a.sfx ≠ suffixChars b.sfx) ∧
    (runDistinct.txs.map Tx.number).Nodup :=
  ⟨by decide, C5_amended_unique ldgA datesA 1095 oracleDistinct 1 (by decide)⟩

/-- C6 counterexample: the probability weight on "delivered" is not
non-decreasing across all six age buckets — a transaction less than one day
old uses the base weights (0.70 delivered for inbound), which exceeds the
0.35 of the 1-3 day bucket, so the weight drops as age increases from the
youngest bucket to the next. -/
theorem C6_counterexample :
    deliveredWeight TType.inbound 1 = 70/100 ∧
    deliveredWeight TType.inbound 2 = 35/100 ∧
    ¬ deliveredWeight TType.inbound 1 ≤ deliveredWeight TType.inbound 2 := by
  refine ⟨by norm_num [deliveredWeight, baseDelivered], ?_, ?_⟩ <;>
    norm_num [deliveredWeight, baseDelivered]

/-- C6 (amended): across the five age-adjusted buckets (age at least 2 days,
i.e. the 1-3d, 3-7d, 7-14d, 14-30d and over-30d buckets) the weight on
"delivered" is non-decreasing in age, for every transaction type; only the
most-recent bucket, which falls back to the original per-type distribution,
breaks monotonicity. -/
theorem C6_amended_monotone (t : TType) (a b : ℕ) (h2 : 2 ≤ a)
    (hab : a ≤ b) : deliveredWeight t a ≤ deliveredWeight t b := by
  unfold deliveredWeight
  split_ifs <;> first | (exfalso; omega) | norm_num

/-- Witness for C6 (amended) at concrete ages 2 and 40. -/
theorem C6_amended_monotone_witness :
    (2 : ℕ) ≤ 2 ∧ (2 : ℕ) ≤ 40 ∧
    deliveredWeight TType.inbound 2 ≤ deliveredWeight TType.inbound 40 :=
  ⟨by decide, by decide,
   C6_amended_monotone TType.inbound 2 40 (by decide) (by decide)⟩

/-- C7: the code contradicts the claim (and its own comments in
generate_quantity) at this concrete input: against a prior stock of 8, the
adjustment draw randint(-10,10) = +10 passes the negative-clamp untouched,
and the emitter's blanket quantity = -abs(quantity) (applied to sales AND
adjustments) turns it into -10 — so the emitted adjustment is negative (no
emitted adjustment is ever positive) and its magnitude 10 exceeds the prior
stock 8. -/
theorem C7_adjustment_eval :
    runAdj.txs.headI.ttype = TType.adjustment ∧
    runAdj.txs.headI.qty = -10 ∧
    runAdj.txs.headI.pre = 8 ∧
    runAdj.txs.headI.pre < (runAdj.txs.headI.qty.natAbs : ℤ) ∧
    runAdj.txs.headI.qty < 0 := by decide

/-- C8 counterexample: the growth-trend table only covers the years
2022-2025, so on a run whose date range reaches into 2026 (end date = today
= 2026-10-12, start = 2023-10-13) the day multipliers of the end date are
undefined — get_growth_multiplier raises KeyError for year 2026. -/
theorem C8_counterexample :
    growthTrends 2026 = none ∧ activityMultiplier 10 2026 0 = none := by
  decide

/-- C8 (amended): the activity multipliers are defined for every day of any
range whose calendar years all lie within 2022-2025 (the seasonal and
day-of-week tables are total; only the growth-year lookup is partial). -/
theorem C8_amended_total (y : ℕ) (h1 : 2022 ≤ y) (h2 : y ≤ 2025)
    (m w : ℕ) : (activityMultiplier m y w).isSome = true := by
  interval_cases y <;> simp [activityMultiplier, growthTrends]

/-- Witness for C8 (amended) at year 2024. -/
theorem C8_amended_total_witness :
    (2022 : ℕ) ≤ 2024 ∧ (2024 : ℕ) ≤ 2025 ∧
    (activityMultiplier 5 2024 2).isSome = true :=
  ⟨by decide, by decide, C8_amended_total 2024 (by decide) (by decide) 5 2⟩

/-- C10 counterexample: no pair can start "critical".  At reorder level 15,
warehouse 3 (Milan), with both uniforms drawn at their minima, the claimed
formula reorder_level x uniform(1.2,2.2) x capacity-tier gives
int(15 * 1.2 * 0.6) = 10, strictly below the reorder level — but the code
stores max(10, 15) = 15, so the recorded initial stock is not the formula
value and is not below the reorder level. -/
theorem C10_counterexample :
    initStock 15 3 0 0 = 15 ∧
    Int.toNat (Int.floor ((15 : ℚ) * (12/10 + 0) * whMult 3 0)) = 10 ∧
    ¬ initStock 15 3 0 0 < 15 := by
  have hqN : ((15 : ℕ) : ℚ) * (12/10 + 0) * whMult 3 0 = 54/5 := by
    norm_num [whMult]
  have hfN : Int.floor (((15 : ℕ) : ℚ) * (12/10 + 0) * whMult 3 0) = 10 := by
    rw [hqN, Int.floor_eq_iff]; norm_num
  have hqQ : ((15 : ℚ) * (12/10 + 0) * whMult 3 0) = 54/5 := by
    norm_num [whMult]
  have hfQ : Int.floor ((15 : ℚ) * (12/10 + 0) * whMult 3 0) = 10 := by
    rw [hqQ, Int.floor_eq_iff]; norm_num
  refine ⟨?_, ?_, ?_⟩
  · unfold initStock
    rw [hfN]
    omega
  · rw [hfQ]
    rfl
  · unfold initStock
    rw [hfN]
    omega

/-- C10 (amended): the initial stock of every pair is the tiered-random
formula value clamped from below at the product's reorder level, hence every
pair starts at or above its reorder level — for all draw values, no pair
starts strictly below it ("critical"); the initialization variety is only in
how far above the reorder level a pair starts. -/
theorem C10_amended_at_least_reorder (rlv wid : ℕ) (u1 u2 : ℚ) :
    rlv ≤ initStock rlv wid u1 u2 := le_max_right _ _
